import Mathlib

/-!
Verification development for the XRK-Yunzai Python plugin bridge runtime.

The repository ships two bridge variants, both shallowly embedded here:
* `src/lib/multiplugin/python_bridge.py` — `PluginManager` / `MessageHandler`
  (prefix `py` / source names `call_plugin`, `scan_plugins`, `handle_message`);
* `src/lib/multiplugin/bridge.py` — `PluginLoader` / `MessageHandler`
  (prefix `br` / source names `call_method`, `load_all`, `handle`).

JSON values are embedded as the inductive `Value`; Python dicts as ordered
association lists (`dinsert` replaces in place, as a Python dict does).
Plugin classes are embedded as records of their declared metadata together
with a `methods` map standing for the callable attributes of an instance
(`hasattr` becomes `methods m |>.isSome`); a method receives the instance's
private state, its current call context `e`, and the positional argument
list, and returns either a raised-exception description or a result value
paired with the updated private state.  Construction of a live instance is
tagged with a fresh `tag` drawn from `ManagerState.nextTag`, so that
"the same instance object" is expressible as tag equality.
-/

/-! ### Spec-shaped characterization of discovery

The claim text describes discovery as: candidate directories are the
immediate subdirectories without the reserved prefix; within one, the
canonical entry file if present, otherwise every non-reserved source file;
keys are `"<directory-name>/<file-name>"`.  The following definitions spell
that out directly; the theorems below prove the transcribed loaders equal
to them. -/

/-- A JSON-like value as carried on the line-delimited protocol. -/
inductive Value where
  | null
  | bool (b : Bool)
  | int (n : Int)
  | str (s : String)
  | list (xs : List Value)
  | dict (kvs : List (String × Value))

/-- A Python dict with string keys, as an insertion-ordered association list. -/
abbrev Dict := List (String × Value)

/-- Python truthiness of a value (`if msg_id:` in the source). -/
def truthy : Value → Bool
  | Value.null => false
  | Value.bool b => b
  | Value.int n => n != 0
  | Value.str s => s != ""
  | Value.list xs => !xs.isEmpty
  | Value.dict kvs => !kvs.isEmpty

/-- Truthiness of `message.get(k)`: an absent key is `None`, hence falsy. -/
def truthyOpt : Option Value → Bool
  | none => false
  | some v => truthy v

/-- `d.get(k)` on an association list. -/
def dget (k : String) : List (String × α) → Option α
  | [] => none
  | (k', v') :: rest => if k' = k then some v' else dget k rest

/-- `d[k] = v` on an association list: replaces in place, else appends,
mirroring Python dict assignment (insertion order is preserved and a
re-assigned key keeps its original position). -/
def dinsert (k : String) (v : α) : List (String × α) → List (String × α)
  | [] => [(k, v)]
  | (k', v') :: rest => if k' = k then (k, v) :: rest else (k', v') :: dinsert k v rest

/-- `PluginRule` dataclass of python_bridge.py (fields in declaration order). -/
structure PluginRule where
  reg : Option String
  fnc : String
  event : String
  log : Bool
  permission : String

/-- `PluginRule.to_dict`: `asdict` in field order, dropping `None` values
(only `reg` is typed `Optional`, so only it can be dropped). -/
def PluginRule.to_dict (r : PluginRule) : Dict :=
  (match r.reg with
   | some s => [("reg", Value.str s)]
   | none => []) ++
  [("fnc", Value.str r.fnc), ("event", Value.str r.event),
   ("log", Value.bool r.log), ("permission", Value.str r.permission)]

/-- `PluginTask` dataclass of python_bridge.py. -/
structure PluginTask where
  cron : String
  fnc : String
  name : Option String
  log : Bool

/-- `PluginTask.to_dict`: plain `asdict`, `None` kept as JSON null. -/
def PluginTask.to_dict (t : PluginTask) : Dict :=
  [("cron", Value.str t.cron), ("fnc", Value.str t.fnc),
   ("name", match t.name with | some s => Value.str s | none => Value.null),
   ("log", Value.bool t.log)]

/-- An element of a plugin's declared `rule` list: either a plain dict
(as the example plugins use) or a `PluginRule` object. -/
inductive RuleVal where
  | rdict (d : Dict)
  | robj (r : PluginRule)

/-- An element of a plugin's declared `task` list. -/
inductive TaskVal where
  | tdict (d : Dict)
  | tobj (t : PluginTask)

/-- python_bridge.py serialization of one rule:
`r.to_dict() if hasattr(r, 'to_dict') else r`. -/
def serializeRulePy : RuleVal → Value
  | RuleVal.rdict d => Value.dict d
  | RuleVal.robj r => Value.dict r.to_dict

/-- python_bridge.py serialization of one task. -/
def serializeTaskPy : TaskVal → Value
  | TaskVal.tdict d => Value.dict d
  | TaskVal.tobj t => Value.dict t.to_dict

/-- bridge.py `_serialize_rules`, one element: a dict passes through, any
other object is read back field by field with `getattr` defaults; `reg`
may be `None` and is kept as JSON null. -/
def serializeRuleBr : RuleVal → Value
  | RuleVal.rdict d => Value.dict d
  | RuleVal.robj r =>
      Value.dict
        [("reg", match r.reg with | some s => Value.str s | none => Value.null),
         ("fnc", Value.str r.fnc), ("event", Value.str r.event),
         ("log", Value.bool r.log), ("permission", Value.str r.permission)]

/-- Whether a task value survives `json.dumps` in bridge.py, which passes
`instance.task` through raw: a plain dict does, an arbitrary object does not. -/
def taskJsonOk : TaskVal → Bool
  | TaskVal.tdict _ => true
  | TaskVal.tobj _ => false

/-- The raw pass-through of a task in bridge.py's registration payload. -/
def serializeTaskBrRaw : TaskVal → Value
  | TaskVal.tdict d => Value.dict d
  | TaskVal.tobj t => Value.dict t.to_dict

/-- The behavior of one callable attribute of a plugin instance: from the
instance's private state, its call context `e`, and positional args, either
a raised exception's description or the return value with the new private
state. -/
abbrev MethodFn := Value → Option Dict → List Value → Except String (Value × Value)

/-- A plugin class as discovered in a loaded module: its declared metadata
plus the behavior of its instances. -/
structure PluginClass where
  name : String
  priority : Int
  bypassThrottle : Bool
  rule : List RuleVal
  task : List TaskVal
  init : Value
  methods : String → Option MethodFn

/-- A live plugin instance.  `tag` records the construction event that
created it (a fresh value per construction), `state` its private mutable
state, `e` the call-context field set from `args[0]`. -/
structure Instance where
  tag : Nat
  state : Value
  e : Option Dict
  methods : String → Option MethodFn

/-- Constructing an instance of a class (`plugin_class()`): fresh private
state from the class, no call context yet, the class's callables. -/
def mkInstance (tag : Nat) (cls : PluginClass) : Instance :=
  { tag := tag, state := cls.init, e := none, methods := cls.methods }

/-- The registry state shared by both variants: key→type map (`plugins`),
key→live-instance map (`instances`), and the construction counter backing
instance tags.  (`loaded_modules` of python_bridge.py is bookkeeping with
no observable effect and is not modelled.) -/
structure ManagerState where
  plugins : List (String × PluginClass)
  instances : List (String × Instance)
  nextTag : Nat

/-- `args[0]` when it is a dict (`args and isinstance(args[0], dict)`). -/
def leadingDict : List Value → Option Dict
  | Value.dict d :: _ => some d
  | _ => none

/-- The common tail of `call_plugin` (python_bridge.py) and `call_method`
(bridge.py) once the instance is in hand — the two sources contain the same
four statements, differing only in the unknown-method error text
(`methodErr`): inject `args[0]` as the call context `e` *before* the
`hasattr` check, then invoke.  The state threading mirrors the in-place
object mutations of the source: every exit path writes the mutated instance
back into `instances` (in Python the dict entry and the mutated object are
one and the same reference). -/
def call_dispatch (methodErr : String) (mgr : ManagerState) (key method : String)
    (args : List Value) (inst0 : Instance) : Except String Value × ManagerState :=
  let inst1 := match leadingDict args with
               | some d => { inst0 with e := some d }
               | none => inst0
  match inst1.methods method with
  | none =>
      (Except.error methodErr,
       { mgr with instances := dinsert key inst1 mgr.instances })
  | some f =>
      match f inst1.state inst1.e args with
      | Except.error e =>
          (Except.error e, { mgr with instances := dinsert key inst1 mgr.instances })
      | Except.ok (v, s') =>
          (Except.ok v,
           { mgr with instances := dinsert key { inst1 with state := s' } mgr.instances })

/-- `PluginManager.call_plugin` of python_bridge.py: unknown key raises
`ValueError`, the live instance is constructed lazily on first call. -/
def call_plugin (mgr : ManagerState) (key method : String) (args : List Value) :
    Except String Value × ManagerState :=
  match dget key mgr.plugins with
  | none => (Except.error ("插件不存在: " ++ key), mgr)
  | some cls =>
    match dget key mgr.instances with
    | some i =>
        call_dispatch ("方法不存在: " ++ key ++ "." ++ method) mgr key method args i
    | none =>
        let i := mkInstance mgr.nextTag cls
        call_dispatch ("方法不存在: " ++ key ++ "." ++ method)
          { mgr with instances := dinsert key i mgr.instances, nextTag := mgr.nextTag + 1 }
          key method args i

/-- `PluginLoader.call_method` of bridge.py: identical logic, but the
unknown-method description carries only the method name. -/
def call_method (mgr : ManagerState) (key method : String) (args : List Value) :
    Except String Value × ManagerState :=
  match dget key mgr.plugins with
  | none => (Except.error ("插件不存在: " ++ key), mgr)
  | some cls =>
    match dget key mgr.instances with
    | some i =>
        call_dispatch ("方法不存在: " ++ method) mgr key method args i
    | none =>
        let i := mkInstance mgr.nextTag cls
        call_dispatch ("方法不存在: " ++ method)
          { mgr with instances := dinsert key i mgr.instances, nextTag := mgr.nextTag + 1 }
          key method args i

/-- A message the bridge writes to standard output, abstracted to its
`type` and payload (`send_message` / `_send_message` / `_send_response`). -/
inductive OutMsg where
  | ready
  | response (id : Option Value) (data : Dict)
  | pluginRegistered (data : Dict)
  | log (level : String) (message : String)

/-- The descriptor dict python_bridge.py sends in a `plugin_registered`
event (`_send_plugin_registered`'s `plugin_info`, keys in source order). -/
def descriptorPy (key : String) (cls : PluginClass) : Dict :=
  [("key", Value.str key), ("name", Value.str cls.name),
   ("priority", Value.int cls.priority),
   ("bypassThrottle", Value.bool cls.bypassThrottle),
   ("rule", Value.list (cls.rule.map serializeRulePy)),
   ("task", Value.list (cls.task.map serializeTaskPy))]

/-- The descriptor dict bridge.py sends (no `bypassThrottle` field; rules
via `_serialize_rules`, tasks passed through raw). -/
def descriptorBr (key : String) (cls : PluginClass) : Dict :=
  [("key", Value.str key), ("name", Value.str cls.name),
   ("priority", Value.int cls.priority),
   ("rule", Value.list (cls.rule.map serializeRuleBr)),
   ("task", Value.list (cls.task.map serializeTaskBrRaw))]

/-- A source file in a plugin directory: its file name and the plugin
classes found when scanning the loaded module's attributes (subclasses of
the base class, base excluded), in `dir()` order.  A file whose import or
transient construction raises is caught and logged by the per-file
`try/except` and contributes nothing; such a file is modelled with an
empty class list. -/
structure PFile where
  name : String
  classes : List PluginClass

/-- An immediate subdirectory of the plugin root. -/
structure PDir where
  name : String
  files : List PFile

/-- An immediate child of the plugin root, in `iterdir()` order. -/
inductive FSEntry where
  | file (f : PFile)
  | dir (d : PDir)

/-- `str.startswith`, spelled over the character list so that it reduces
in the kernel. -/
def strStartsWith (s p : String) : Bool := p.toList.isPrefixOf s.toList

/-- `str.endswith`, spelled over the character list. -/
def strEndsWith (s p : String) : Bool := p.toList.isSuffixOf s.toList

/-- Membership in `folder.glob('*.py')` minus the reserved prefix:
glob excludes dot-files, and both sources skip names starting `__`. -/
def globOk (n : String) : Bool :=
  strEndsWith n ".py" && !strStartsWith n "." && !strStartsWith n "__"

/-- `item.is_file() and item.suffix == '.py'` for a root-level entry of
bridge.py's `load_all` (`Path('.py').suffix` is empty, hence the exclusion
of the bare name). -/
def topPy (n : String) : Bool :=
  strEndsWith n ".py" && n != ".py"

/-- The registration loop of python_bridge.py's `_load_plugin_file` over
the plugin classes found in one module: store the type under the key, then
construct a transient instance and emit its `plugin_registered` event. -/
def registerClasses (mgr : ManagerState) (key : String) :
    List PluginClass → ManagerState × List OutMsg
  | [] => (mgr, [])
  | c :: cs =>
      let r := registerClasses { mgr with plugins := dinsert key c mgr.plugins } key cs
      (r.1, OutMsg.pluginRegistered (descriptorPy key c) :: r.2)

/-- `PluginManager._load_plugin_file`: the key is `"<folder>/<file-name>"`. -/
def load_plugin_file (mgr : ManagerState) (folderName : String) (f : PFile) :
    ManagerState × List OutMsg :=
  registerClasses mgr (folderName ++ "/" ++ f.name) f.classes

/-- The `for py_file in folder.glob("*.py")` loop body sequence. -/
def loadFiles (mgr : ManagerState) (folderName : String) :
    List PFile → ManagerState × List OutMsg
  | [] => (mgr, [])
  | f :: fs =>
      let r := load_plugin_file mgr folderName f
      let r2 := loadFiles r.1 folderName fs
      (r2.1, r.2 ++ r2.2)

/-- `PluginManager._load_plugin_folder`: prefer `index.py` when present,
otherwise load every non-reserved `.py` file of the directory. -/
def load_plugin_folder (mgr : ManagerState) (d : PDir) : ManagerState × List OutMsg :=
  match d.files.find? (fun f => f.name == "index.py") with
  | some f => load_plugin_file mgr d.name f
  | none => loadFiles mgr d.name (d.files.filter (fun f => globOk f.name))

/-- `PluginManager.scan_plugins`: walk the root's immediate children,
descending only into directories whose name does not start with `__`
(a missing root directory is modelled by the empty listing). -/
def scan_plugins (mgr : ManagerState) : List FSEntry → ManagerState × List OutMsg
  | [] => (mgr, [])
  | FSEntry.file _ :: rest => scan_plugins mgr rest
  | FSEntry.dir d :: rest =>
      if strStartsWith d.name "__" then scan_plugins mgr rest
      else
        let r := load_plugin_folder mgr d
        let r2 := scan_plugins r.1 rest
        (r2.1, r.2 ++ r2.2)

/-- The registration loop of bridge.py's `_load_file`.  A class whose raw
`task` list is not JSON-serializable still gets registered, but
`json.dumps` raises inside `_send_message`, which swallows the exception —
so no `plugin_registered` event reaches the host for it. -/
def br_registerClasses (mgr : ManagerState) (key : String) :
    List PluginClass → ManagerState × List OutMsg
  | [] => (mgr, [])
  | c :: cs =>
      let r := br_registerClasses { mgr with plugins := dinsert key c mgr.plugins } key cs
      (r.1,
       (if c.task.all taskJsonOk then [OutMsg.pluginRegistered (descriptorBr key c)]
        else []) ++ r.2)

/-- `PluginLoader._load_file`: the key is `str(relative_path)`, passed in
by the caller (`"<file>"` at the root, `"<dir>/<file>"` inside a dir). -/
def br_load_file (mgr : ManagerState) (key : String) (f : PFile) :
    ManagerState × List OutMsg :=
  br_registerClasses mgr key f.classes

/-- The glob loop of `PluginLoader._load_directory`. -/
def br_loadFiles (mgr : ManagerState) (dirName : String) :
    List PFile → ManagerState × List OutMsg
  | [] => (mgr, [])
  | f :: fs =>
      let r := br_load_file mgr (dirName ++ "/" ++ f.name) f
      let r2 := br_loadFiles r.1 dirName fs
      (r2.1, r.2 ++ r2.2)

/-- `PluginLoader._load_directory`: same `index.py` preference as the
other variant. -/
def br_load_directory (mgr : ManagerState) (d : PDir) : ManagerState × List OutMsg :=
  match d.files.find? (fun f => f.name == "index.py") with
  | some f => br_load_file mgr (d.name ++ "/" ++ f.name) f
  | none => br_loadFiles mgr d.name (d.files.filter (fun f => globOk f.name))

/-- `PluginLoader.load_all`: unlike `scan_plugins`, a root-level `.py`
file is itself loaded, under a key with no directory component. -/
def br_load_all (mgr : ManagerState) : List FSEntry → ManagerState × List OutMsg
  | [] => (mgr, [])
  | FSEntry.file f :: rest =>
      if topPy f.name then
        let r := br_load_file mgr f.name f
        let r2 := br_load_all r.1 rest
        (r2.1, r.2 ++ r2.2)
      else br_load_all mgr rest
  | FSEntry.dir d :: rest =>
      if strStartsWith d.name "__" then br_load_all mgr rest
      else
        let r := br_load_directory mgr d
        let r2 := br_load_all r.1 rest
        (r2.1, r.2 ++ r2.2)

/-- The decoded wire envelope, with every field optional exactly as
`message.get(...)` / `message[...]` treat it in the sources. -/
structure Message where
  type : Option String
  id : Option Value
  plugin : Option String
  method : Option String
  args : Option (List Value)
  data : Option Dict

/-- A shorthand for a well-formed `call` envelope. -/
def mkCall (id : Option Value) (plugin method : String) (args : List Value) : Message :=
  { type := some "call", id := id, plugin := some plugin, method := some method,
    args := some args, data := none }

/-- A shorthand for a well-formed `load_plugins` envelope. -/
def mkLoadPlugins (id : Option Value) (dir : String) : Message :=
  { type := some "load_plugins", id := id, plugin := none, method := none,
    args := none, data := some [("dir", Value.str dir)] }

/-- A shorthand for a `shutdown` envelope. -/
def mkShutdown : Message :=
  { type := some "shutdown", id := none, plugin := none, method := none,
    args := none, data := none }

/-- The handler's mutable state: the registry plus the `running` flag. -/
structure HState where
  mgr : ManagerState
  running : Bool

/-- python_bridge.py's error reply: the `except` block only answers when
`msg_id` is truthy (`if msg_id:`); a falsy or absent id is answered with
nothing. -/
def errOutPy (mid : Option Value) (e : String) : List OutMsg :=
  if truthyOpt mid then [OutMsg.response mid [("error", Value.str e)]] else []

/-- `MessageHandler.handle_message` of python_bridge.py.  Dispatches on
`message.get('type')` in source order; a `KeyError` raised by a mandatory
subscript (`message['data']['dir']`, `message['plugin']`,
`message['method']`) is caught by the surrounding `except` and surfaced as
its `str(...)` (the quoted key name); `load_plugins` re-runs discovery via
the filesystem oracle `fsOf`.  (`Path(non-str)` raising `TypeError` is
summarized by its leading text.) -/
def handle_message (fsOf : String → List FSEntry) (st : HState) (msg : Message) :
    HState × List OutMsg :=
  if msg.type = some "load_plugins" then
    match msg.data with
    | none => (st, errOutPy msg.id "'data'")
    | some d =>
        match dget "dir" d with
        | none => (st, errOutPy msg.id "'dir'")
        | some (Value.str dir) =>
            let r := scan_plugins st.mgr (fsOf dir)
            ({ st with mgr := r.1 }, r.2)
        | some _ => (st, errOutPy msg.id "argument should be a str or an os.PathLike object")
  else if msg.type = some "call" then
    match msg.plugin with
    | none => (st, errOutPy msg.id "'plugin'")
    | some p =>
        match msg.method with
        | none => (st, errOutPy msg.id "'method'")
        | some m =>
            let r := call_plugin st.mgr p m (msg.args.getD [])
            match r.1 with
            | Except.ok v =>
                ({ st with mgr := r.2 }, [OutMsg.response msg.id [("value", v)]])
            | Except.error e => ({ st with mgr := r.2 }, errOutPy msg.id e)
  else if msg.type = some "shutdown" then
    ({ st with running := false }, [])
  else (st, [])

/-- `MessageHandler.handle` of bridge.py.  Only `call` and `shutdown` are
dispatched; everything else — including `load_plugins` — falls through the
`if/elif` chain untouched.  The `except` block always answers
(`_send_response(msg_id, {'error': ...})`), truthy id or not, and the
success payload key is `result`. -/
def br_handle (st : HState) (msg : Message) : HState × List OutMsg :=
  if msg.type = some "call" then
    match msg.plugin with
    | none => (st, [OutMsg.response msg.id [("error", Value.str "'plugin'")]])
    | some p =>
        match msg.method with
        | none => (st, [OutMsg.response msg.id [("error", Value.str "'method'")]])
        | some m =>
            let r := call_method st.mgr p m (msg.args.getD [])
            match r.1 with
            | Except.ok v =>
                ({ st with mgr := r.2 }, [OutMsg.response msg.id [("result", v)]])
            | Except.error e =>
                ({ st with mgr := r.2 }, [OutMsg.response msg.id [("error", Value.str e)]])
  else if msg.type = some "shutdown" then
    ({ st with running := false }, [])
  else (st, [])

/-- One line read from standard input, after `line.strip()`: whitespace
only, undecodable JSON, or a decoded message. -/
inductive Line where
  | blank
  | malformed (raw : String)
  | msg (m : Message)

/-- What a run of the read loop produced: the protocol messages written to
standard output, the diagnostics written to the side logging stream
(`logger.error`), and the final handler state. -/
structure LoopResult where
  outs : List OutMsg
  diags : List String
  final : HState

/-- The shared read cycle of both `MessageHandler.run` loops, parameterized
by the variant's dispatch function and its decode-failure diagnostic text:
consult `running` before each read, stop at end of input, skip blank lines,
log-and-discard undecodable ones, dispatch the rest. -/
def runLoop (handle : HState → Message → HState × List OutMsg)
    (logMal : String → String) : HState → List Line → LoopResult
  | st, [] => ⟨[], [], st⟩
  | st, l :: rest =>
      if st.running then
        match l with
        | Line.blank => runLoop handle logMal st rest
        | Line.malformed raw =>
            let r := runLoop handle logMal st rest
            ⟨r.outs, logMal raw :: r.diags, r.final⟩
        | Line.msg m =>
            let h := handle st m
            let r := runLoop handle logMal h.1 rest
            ⟨h.2 ++ r.outs, r.diags, r.final⟩
      else ⟨[], [], st⟩

/-- python_bridge.py's `MessageHandler.run`: emit `ready`, then the
protocol `log` line `"Python运行时已就绪"`, then loop. -/
def py_run (fsOf : String → List FSEntry) (st : HState) (lines : List Line) : LoopResult :=
  let r := runLoop (handle_message fsOf) (fun _ => "JSON解析错误") st lines
  ⟨OutMsg.ready :: OutMsg.log "info" "Python运行时已就绪" :: r.outs, r.diags, r.final⟩

/-- bridge.py's `MessageHandler.run`: emit `ready`, then loop. -/
def br_run (st : HState) (lines : List Line) : LoopResult :=
  let r := runLoop br_handle (fun raw => "无效的JSON: " ++ raw) st lines
  ⟨OutMsg.ready :: r.outs, r.diags, r.final⟩

/-- The `--plugins-dir` scan both `main`s perform over `sys.argv`
(the last occurrence followed by a value wins). -/
def parsePluginsDir : List String → String → String
  | [], acc => acc
  | [_], acc => acc
  | a :: b :: rest, acc =>
      parsePluginsDir (b :: rest) (if a = "--plugins-dir" then b else acc)

/-- The registry both `main`s start from. -/
def initMgr : ManagerState := ⟨[], [], 0⟩

/-- python_bridge.py's `main`: the plugin directory option is parsed but —
unlike in bridge.py — never passed to any discovery call; the manager
starts empty and the loop runs immediately. -/
def py_main (argv : List String) (fsOf : String → List FSEntry)
    (lines : List Line) : LoopResult :=
  let _pluginsDir := parsePluginsDir argv "plugins/python"
  py_run fsOf ⟨initMgr, true⟩ lines

/-- bridge.py's `main`: `loader.load_all()` runs over the configured root
before `handler.run()` emits anything. -/
def br_main (argv : List String) (fsOf : String → List FSEntry)
    (lines : List Line) : LoopResult :=
  let dir := parsePluginsDir argv "plugins/python"
  let disc := br_load_all initMgr (fsOf dir)
  let r := br_run ⟨disc.1, true⟩ lines
  ⟨disc.2 ++ r.outs, r.diags, r.final⟩

/-- The immediate subdirectories of the root that discovery descends into. -/
def candidateDirs (fs : List FSEntry) : List PDir :=
  fs.filterMap (fun ent =>
    match ent with
    | FSEntry.dir d => if strStartsWith d.name "__" then none else some d
    | FSEntry.file _ => none)

/-- The files loaded inside one candidate directory: `index.py` alone when
present, otherwise every non-reserved `.py` file. -/
def selectedFiles (d : PDir) : List PFile :=
  match d.files.find? (fun f => f.name == "index.py") with
  | some f => [f]
  | none => d.files.filter (fun f => globOk f.name)

/-- The key/class registrations contributed by one file of a directory. -/
def filePairs (folderName : String) (f : PFile) : List (String × PluginClass) :=
  f.classes.map (fun c => (folderName ++ "/" ++ f.name, c))

/-- The registrations contributed by one candidate directory. -/
def dirPairs (d : PDir) : List (String × PluginClass) :=
  (selectedFiles d).flatMap (filePairs d.name)

/-- Everything python_bridge.py's `scan_plugins` registers, in order. -/
def pyDiscovered (fs : List FSEntry) : List (String × PluginClass) :=
  (candidateDirs fs).flatMap dirPairs

/-- Everything bridge.py's `load_all` registers, in order: the same
directory walk, plus root-level `.py` files under a bare-file-name key. -/
def brDiscovered (fs : List FSEntry) : List (String × PluginClass) :=
  fs.flatMap (fun ent =>
    match ent with
    | FSEntry.file f =>
        if topPy f.name then f.classes.map (fun c => (f.name, c)) else []
    | FSEntry.dir d =>
        if strStartsWith d.name "__" then [] else dirPairs d)

/-- Folding a batch of registrations into the key→type dict. -/
def insertAll (ps : List (String × PluginClass)) (kcs : List (String × PluginClass)) :
    List (String × PluginClass) :=
  kcs.foldl (fun a kc => dinsert kc.1 kc.2 a) ps

/-- The `plugin_registered` events python_bridge.py emits for a batch. -/
def pyEvents (kcs : List (String × PluginClass)) : List OutMsg :=
  kcs.map (fun kc => OutMsg.pluginRegistered (descriptorPy kc.1 kc.2))

/-- The `plugin_registered` events bridge.py emits for a batch (classes
whose raw task list defeats `json.dumps` are silently dropped by
`_send_message`). -/
def brEvents (kcs : List (String × PluginClass)) : List OutMsg :=
  kcs.flatMap (fun kc =>
    if kc.2.task.all taskJsonOk then [OutMsg.pluginRegistered (descriptorBr kc.1 kc.2)]
    else [])

/-- Recognizer for the `ready` message. -/
def isReady : OutMsg → Bool
  | OutMsg.ready => true
  | _ => false

/-- Recognizer for a `plugin_registered` event. -/
def isReg : OutMsg → Bool
  | OutMsg.pluginRegistered _ => true
  | _ => false

/-- A test method that bumps an integer private counter. -/
def incFn : MethodFn := fun st _e _args =>
  match st with
  | Value.int n => Except.ok (Value.int (n + 1), Value.int (n + 1))
  | _ => Except.error "bad state"

/-- A test method that returns the instance's current call context. -/
def showEFn : MethodFn := fun st e _args => Except.ok (Value.dict (e.getD []), st)

/-- A two-method test plugin used as concrete witness material. -/
def counterClass : PluginClass :=
  { name := "Counter", priority := 50, bypassThrottle := false,
    rule := [], task := [], init := Value.int 0,
    methods := fun m =>
      if m = "inc" then some incFn
      else if m = "show_e" then some showEFn
      else none }

/-- A registry that has `counterClass` registered under `"k"` and no live
instance yet. -/
def counterMgr : ManagerState := ⟨[("k", counterClass)], [], 0⟩

/-- Modelled from the spec: the orchestrator-side reconstruction of a Rule
from the dictionary carried in a `plugin_registered` event.  The repository
contains only the serializing half (the consuming host process is not under
src/); per the spec's field list, absent keys take the declared defaults. -/
def ruleFromDict (d : Dict) : PluginRule :=
  { reg := match dget "reg" d with | some (Value.str s) => some s | _ => none,
    fnc := match dget "fnc" d with | some (Value.str s) => s | _ => "",
    event := match dget "event" d with | some (Value.str s) => s | _ => "message",
    log := match dget "log" d with | some (Value.bool b) => b | _ => true,
    permission := match dget "permission" d with | some (Value.str s) => s | _ => "all" }

/-- Modelled from the spec: reconstruction of a ScheduledTask from its
serialized dictionary. -/
def taskFromDict (d : Dict) : PluginTask :=
  { cron := match dget "cron" d with | some (Value.str s) => s | _ => "",
    fnc := match dget "fnc" d with | some (Value.str s) => s | _ => "",
    name := match dget "name" d with | some (Value.str s) => some s | _ => none,
    log := match dget "log" d with | some (Value.bool b) => b | _ => true }

/-- Reconstruction of a rule from the serialized `Value` (a non-dict never
occurs for serialized rule objects). -/
def reconRule (v : Value) : PluginRule :=
  match v with
  | Value.dict d => ruleFromDict d
  | _ => { reg := none, fnc := "", event := "message", log := true, permission := "all" }

/-- Reconstruction of a task from the serialized `Value`. -/
def reconTask (v : Value) : PluginTask :=
  match v with
  | Value.dict d => taskFromDict d
  | _ => { cron := "", fnc := "", name := none, log := true }

/-- Exactly one of the two given keys is present in a response payload. -/
def exactlyOneKey (d : Dict) (k1 k2 : String) : Prop :=
  ((dget k1 d).isSome = true ∧ dget k2 d = none)
  ∨ (dget k1 d = none ∧ (dget k2 d).isSome = true)

/-- A live counter instance whose private counter is already at 5. -/
def liveInst : Instance := ⟨0, Value.int 5, none, counterClass.methods⟩

/-- The same instance after a call left the context `{msg: hi}` in `e`. -/
def staleInst : Instance :=
  ⟨0, Value.int 5, some [("msg", Value.str "hi")], counterClass.methods⟩

/-- A registry holding `liveInst` under `"k"`, tagged 0. -/
def liveMgr : ManagerState := ⟨[("k", counterClass)], [("k", liveInst)], 1⟩

/-- A registry whose live counter instance still holds the context left by
an earlier call. -/
def staleMgr : ManagerState := ⟨[("k", counterClass)], [("k", staleInst)], 1⟩

/-- A registry whose live counter instance holds a non-integer private
state, so that its `inc` method raises. -/
def badMgr : ManagerState :=
  ⟨[("k", counterClass)], [("k", ⟨0, Value.null, none, counterClass.methods⟩)], 1⟩

theorem dget_dinsert_self (k : String) (v : α) (l : List (String × α)) :
    dget k (dinsert k v l) = some v := by
  induction l with
  | nil => simp [dget, dinsert]
  | cons hd tl ih =>
      by_cases h : hd.1 = k
      · simp [dget, dinsert, h]
      · simp [dget, dinsert, h, ih]

theorem dget_dinsert_ne (k k' : String) (hk : k' ≠ k) (v : α) (l : List (String × α)) :
    dget k (dinsert k' v l) = dget k l := by
  induction l with
  | nil => simp [dget, dinsert, hk]
  | cons hd tl ih =>
      by_cases h : hd.1 = k'
      · simp [dget, dinsert, h, hk]
      · by_cases h2 : hd.1 = k
        · simp [dget, dinsert, h, h2, Ne.symm hk]
        · simp [dget, dinsert, h, h2, ih]

theorem insertAll_nil (ps : List (String × PluginClass)) : insertAll ps [] = ps := rfl

theorem insertAll_cons (ps : List (String × PluginClass)) (kc : String × PluginClass)
    (kcs : List (String × PluginClass)) :
    insertAll ps (kc :: kcs) = insertAll (dinsert kc.1 kc.2 ps) kcs := rfl

theorem insertAll_append (ps : List (String × PluginClass))
    (a b : List (String × PluginClass)) :
    insertAll ps (a ++ b) = insertAll (insertAll ps a) b := by
  simp [insertAll, List.foldl_append]

theorem registerClasses_spec (cs : List PluginClass) (mgr : ManagerState) (key : String) :
    registerClasses mgr key cs =
      ({ mgr with plugins := insertAll mgr.plugins (cs.map (fun c => (key, c))) },
       pyEvents (cs.map (fun c => (key, c)))) := by
  induction cs generalizing mgr with
  | nil => simp [registerClasses, insertAll, pyEvents]
  | cons c cs ih => simp [registerClasses, ih, insertAll_cons, pyEvents]

theorem load_plugin_file_spec (mgr : ManagerState) (folderName : String) (f : PFile) :
    load_plugin_file mgr folderName f =
      ({ mgr with plugins := insertAll mgr.plugins (filePairs folderName f) },
       pyEvents (filePairs folderName f)) := by
  simp [load_plugin_file, registerClasses_spec, filePairs]

theorem loadFiles_spec (fsl : List PFile) (mgr : ManagerState) (folderName : String) :
    loadFiles mgr folderName fsl =
      ({ mgr with plugins := insertAll mgr.plugins (fsl.flatMap (filePairs folderName)) },
       pyEvents (fsl.flatMap (filePairs folderName))) := by
  induction fsl generalizing mgr with
  | nil => simp [loadFiles, insertAll, pyEvents]
  | cons f fsl ih =>
      simp [loadFiles, load_plugin_file_spec, ih, insertAll_append, pyEvents]

theorem load_plugin_folder_spec (mgr : ManagerState) (d : PDir) :
    load_plugin_folder mgr d =
      ({ mgr with plugins := insertAll mgr.plugins (dirPairs d) },
       pyEvents (dirPairs d)) := by
  unfold load_plugin_folder dirPairs selectedFiles
  cases h : d.files.find? (fun f => f.name == "index.py") with
  | none => simp [loadFiles_spec]
  | some f => simp [load_plugin_file_spec]

theorem scan_plugins_spec (fs : List FSEntry) (mgr : ManagerState) :
    scan_plugins mgr fs =
      ({ mgr with plugins := insertAll mgr.plugins (pyDiscovered fs) },
       pyEvents (pyDiscovered fs)) := by
  induction fs generalizing mgr with
  | nil => simp [scan_plugins, pyDiscovered, candidateDirs, insertAll, pyEvents]
  | cons ent rest ih =>
      cases ent with
      | file f => simpa [scan_plugins, pyDiscovered, candidateDirs] using ih mgr
      | dir d =>
          by_cases h : strStartsWith d.name "__"
          · simpa [scan_plugins, pyDiscovered, candidateDirs, h] using ih mgr
          · simp [scan_plugins, pyDiscovered, candidateDirs, h,
                  load_plugin_folder_spec, ih, insertAll_append, pyEvents]

theorem br_registerClasses_spec (cs : List PluginClass) (mgr : ManagerState) (key : String) :
    br_registerClasses mgr key cs =
      ({ mgr with plugins := insertAll mgr.plugins (cs.map (fun c => (key, c))) },
       brEvents (cs.map (fun c => (key, c)))) := by
  induction cs generalizing mgr with
  | nil => simp [br_registerClasses, insertAll, brEvents]
  | cons c cs ih => simp [br_registerClasses, ih, insertAll_cons, brEvents]

theorem br_load_file_spec (mgr : ManagerState) (folderName : String) (f : PFile) :
    br_load_file mgr (folderName ++ "/" ++ f.name) f =
      ({ mgr with plugins := insertAll mgr.plugins (filePairs folderName f) },
       brEvents (filePairs folderName f)) := by
  simp [br_load_file, br_registerClasses_spec, filePairs]

theorem br_loadFiles_spec (fsl : List PFile) (mgr : ManagerState) (dirName : String) :
    br_loadFiles mgr dirName fsl =
      ({ mgr with plugins := insertAll mgr.plugins (fsl.flatMap (filePairs dirName)) },
       brEvents (fsl.flatMap (filePairs dirName))) := by
  induction fsl generalizing mgr with
  | nil => simp [br_loadFiles, insertAll, brEvents]
  | cons f fsl ih =>
      simp [br_loadFiles, br_load_file_spec, ih, insertAll_append, brEvents]

theorem br_load_directory_spec (mgr : ManagerState) (d : PDir) :
    br_load_directory mgr d =
      ({ mgr with plugins := insertAll mgr.plugins (dirPairs d) },
       brEvents (dirPairs d)) := by
  unfold br_load_directory dirPairs selectedFiles
  cases h : d.files.find? (fun f => f.name == "index.py") with
  | none => simp [br_loadFiles_spec]
  | some f => simp [br_load_file_spec]

theorem br_load_all_spec (fs : List FSEntry) (mgr : ManagerState) :
    br_load_all mgr fs =
      ({ mgr with plugins := insertAll mgr.plugins (brDiscovered fs) },
       brEvents (brDiscovered fs)) := by
  induction fs generalizing mgr with
  | nil => simp [br_load_all, brDiscovered, insertAll, brEvents]
  | cons ent rest ih =>
      cases ent with
      | file f =>
          by_cases h : topPy f.name
          · simp [br_load_all, brDiscovered, h, br_load_file, br_registerClasses_spec,
                  ih, insertAll_append, brEvents]
          · simpa [br_load_all, brDiscovered, h] using ih mgr
      | dir d =>
          by_cases h : strStartsWith d.name "__"
          · simpa [br_load_all, brDiscovered, h] using ih mgr
          · simp [br_load_all, brDiscovered, h, br_load_directory_spec, ih,
                  insertAll_append, brEvents]

theorem mem_errOutPy {o : OutMsg} (mid : Option Value) (e : String)
    (h : o ∈ errOutPy mid e) : o = OutMsg.response mid [("error", Value.str e)] := by
  unfold errOutPy at h
  split at h <;> simp_all

theorem handle_message_no_ready (fsOf : String → List FSEntry) (st : HState)
    (m : Message) : OutMsg.ready ∉ (handle_message fsOf st m).2 := by
  intro h
  unfold handle_message at h
  split at h
  · split at h
    · exact absurd (mem_errOutPy _ _ h) (by simp)
    · split at h
      · exact absurd (mem_errOutPy _ _ h) (by simp)
      · simp_all [scan_plugins_spec, pyEvents]
      · exact absurd (mem_errOutPy _ _ h) (by simp)
  · split at h
    · split at h
      · exact absurd (mem_errOutPy _ _ h) (by simp)
      · split at h
        · exact absurd (mem_errOutPy _ _ h) (by simp)
        · dsimp only [] at h
          split at h
          · simp_all
          · exact absurd (mem_errOutPy _ _ h) (by simp)
    · split at h
      · simp_all
      · simp_all

theorem br_handle_out_response (st : HState) (m : Message) :
    ∀ o ∈ (br_handle st m).2, ∃ i d, o = OutMsg.response i d := by
  intro o h
  unfold br_handle at h
  split at h
  · split at h
    · exact ⟨_, _, by simpa using h⟩
    · split at h
      · exact ⟨_, _, by simpa using h⟩
      · dsimp only [] at h
        split at h
        · exact ⟨_, _, by simpa using h⟩
        · exact ⟨_, _, by simpa using h⟩
  · split at h
    · simp_all
    · simp_all

theorem runLoop_outs_mem (handle : HState → Message → HState × List OutMsg)
    (logMal : String → String) :
    ∀ (lines : List Line) (st : HState) (o : OutMsg),
      o ∈ (runLoop handle logMal st lines).outs →
      ∃ st' m, o ∈ (handle st' m).2 := by
  intro lines
  induction lines with
  | nil => intro st o ho; simp [runLoop] at ho
  | cons l rest ih =>
      intro st o ho
      unfold runLoop at ho
      split at ho
      · cases l with
        | blank => exact ih st o ho
        | malformed raw => exact ih st o ho
        | msg m =>
            simp only [List.mem_append] at ho
            rcases ho with ho | ho
            · exact ⟨st, m, ho⟩
            · exact ih _ o ho
      · simp at ho

/-- What `call_dispatch` does to the registry: the final state differs from
the incoming one only by writing one (possibly context-updated,
possibly state-updated) instance back under the key — the written instance
keeps the incoming instance's construction tag and callables. -/
theorem call_dispatch_shape (me : String) (mgr : ManagerState) (k m : String)
    (args : List Value) (inst0 : Instance) :
    ∃ i', (call_dispatch me mgr k m args inst0).2
            = { mgr with instances := dinsert k i' mgr.instances }
          ∧ i'.tag = inst0.tag ∧ i'.methods = inst0.methods := by
  unfold call_dispatch
  cases hl : leadingDict args with
  | some d =>
      cases hm : inst0.methods m with
      | none => exact ⟨{ inst0 with e := some d }, by simp [hm], rfl, rfl⟩
      | some f =>
          cases hf : f inst0.state (some d) args with
          | error e => exact ⟨{ inst0 with e := some d }, by simp [hm, hf], rfl, rfl⟩
          | ok p =>
              exact ⟨{ inst0 with e := some d, state := p.2 }, by simp [hm, hf], rfl, rfl⟩
  | none =>
      cases hm : inst0.methods m with
      | none => exact ⟨inst0, by simp [hm], rfl, rfl⟩
      | some f =>
          cases hf : f inst0.state inst0.e args with
          | error e => exact ⟨inst0, by simp [hm, hf], rfl, rfl⟩
          | ok p => exact ⟨{ inst0 with state := p.2 }, by simp [hm, hf], rfl, rfl⟩

/-- Once the running flag is down, the loop reads nothing further. -/
theorem runLoop_not_running (handle : HState → Message → HState × List OutMsg)
    (logMal : String → String) (st : HState) (lines : List Line)
    (h : st.running = false) : runLoop handle logMal st lines = ⟨[], [], st⟩ := by
  cases lines with
  | nil => rfl
  | cons l rest => simp [runLoop, h]

theorem ruleFromDict_to_dict (r : PluginRule) : ruleFromDict r.to_dict = r := by
  obtain ⟨reg, fnc, event, lg, perm⟩ := r
  cases reg <;> rfl

theorem taskFromDict_to_dict (t : PluginTask) : taskFromDict t.to_dict = t := by
  obtain ⟨cron, fnc, nm, lg⟩ := t
  cases nm <;> rfl

theorem reconRule_serializeRuleBr (r : PluginRule) :
    reconRule (serializeRuleBr (RuleVal.robj r)) = r := by
  obtain ⟨reg, fnc, event, lg, perm⟩ := r
  cases reg <;> rfl

/-- C6: for every Rule and ScheduledTask a plugin declares, the serialized
form carried in the `plugin_registered` event reconstructs a value
field-for-field identical to the declared one, and the rule/task sequences
of the event are element-wise maps of the declared sequences, so their
order equals the declared order. -/
theorem C6_descriptor_round_trip :
    (∀ r : PluginRule, ruleFromDict r.to_dict = r)
    ∧ (∀ t : PluginTask, taskFromDict t.to_dict = t)
    ∧ (∀ rs : List PluginRule,
        ((rs.map RuleVal.robj).map serializeRulePy).map reconRule = rs)
    ∧ (∀ ts : List PluginTask,
        ((ts.map TaskVal.tobj).map serializeTaskPy).map reconTask = ts)
    ∧ (∀ rs : List PluginRule,
        ((rs.map RuleVal.robj).map serializeRuleBr).map reconRule = rs)
    ∧ (∀ (key : String) (cls : PluginClass),
        dget "rule" (descriptorPy key cls)
          = some (Value.list (cls.rule.map serializeRulePy))
        ∧ dget "task" (descriptorPy key cls)
          = some (Value.list (cls.task.map serializeTaskPy))) := by
  refine ⟨ruleFromDict_to_dict, taskFromDict_to_dict, ?_, ?_, ?_, ?_⟩
  · intro rs
    induction rs with
    | nil => rfl
    | cons r rs ih =>
        simp only [List.map_cons]
        rw [show reconRule (serializeRulePy (RuleVal.robj r)) = r from
              ruleFromDict_to_dict r, ih]
  · intro ts
    induction ts with
    | nil => rfl
    | cons t ts ih =>
        simp only [List.map_cons]
        rw [show reconTask (serializeTaskPy (TaskVal.tobj t)) = t from
              taskFromDict_to_dict t, ih]
  · intro rs
    induction rs with
    | nil => rfl
    | cons r rs ih =>
        simp only [List.map_cons]
        rw [reconRule_serializeRuleBr r, ih]
  · intro key cls
    exact ⟨rfl, rfl⟩

/-- C10: invocation is not atomic with respect to the call context.  In
both variants, a call whose `args[0]` is a mapping overwrites the
instance's context field `e` before the unknown-method check, so the
failed call still mutates the context; and a call whose `args[0]` is not a
mapping hands the invoked method whatever context the previous call left
in `e`. -/
theorem C10_context_mutated_despite_failure :
    (∀ (mgr : ManagerState) (k : String) (cls : PluginClass) (i : Instance)
        (m : String) (args : List Value) (d : Dict),
       dget k mgr.plugins = some cls → dget k mgr.instances = some i →
       leadingDict args = some d → i.methods m = none →
       call_plugin mgr k m args
         = (Except.error ("方法不存在: " ++ k ++ "." ++ m),
            { mgr with instances := dinsert k { i with e := some d } mgr.instances }))
    ∧ (∀ (mgr : ManagerState) (k : String) (cls : PluginClass) (i : Instance)
        (m : String) (args : List Value) (d : Dict),
       dget k mgr.plugins = some cls → dget k mgr.instances = some i →
       leadingDict args = some d → i.methods m = none →
       call_method mgr k m args
         = (Except.error ("方法不存在: " ++ m),
            { mgr with instances := dinsert k { i with e := some d } mgr.instances }))
    ∧ (∀ (mgr : ManagerState) (k : String) (cls : PluginClass) (i : Instance)
        (m : String) (args : List Value) (f : MethodFn),
       dget k mgr.plugins = some cls → dget k mgr.instances = some i →
       leadingDict args = none → i.methods m = some f →
       (call_plugin mgr k m args).1 = Except.map Prod.fst (f i.state i.e args)) := by
  refine ⟨?_, ?_, ?_⟩
  · intro mgr k cls i m args d h1 h2 h3 h4
    unfold call_plugin call_dispatch
    simp [h1, h2, h3, h4]
  · intro mgr k cls i m args d h1 h2 h3 h4
    unfold call_method call_dispatch
    simp [h1, h2, h3, h4]
  · intro mgr k cls i m args f h1 h2 h3 h4
    unfold call_plugin call_dispatch
    cases hf : f i.state i.e args with
    | error e => simp [h1, h2, h3, h4, hf, Except.map]
    | ok p =>
        obtain ⟨v, s'⟩ := p
        simp [h1, h2, h3, h4, hf, Except.map]

/-- C3: for every registered key, the first dispatched call constructs
exactly one live instance (the construction counter advances by one and
the stored instance bears the fresh tag), every subsequent call to the key
reuses that instance (same tag, same callables, counter unchanged), calls
to other keys never touch it, and instance-private state persists across
sequential calls — witnessed by the counter plugin reaching 2 after two
`inc` calls. -/
theorem C3_single_instance_per_key :
    (∀ (mgr : ManagerState) (k : String) (cls : PluginClass) (m : String)
        (args : List Value),
       dget k mgr.plugins = some cls → dget k mgr.instances = none →
       ∃ i', dget k ((call_plugin mgr k m args).2).instances = some i'
         ∧ i'.tag = mgr.nextTag ∧ i'.methods = cls.methods
         ∧ ((call_plugin mgr k m args).2).nextTag = mgr.nextTag + 1)
    ∧ (∀ (mgr : ManagerState) (k : String) (cls : PluginClass) (i : Instance)
        (m : String) (args : List Value),
       dget k mgr.plugins = some cls → dget k mgr.instances = some i →
       ∃ i', dget k ((call_plugin mgr k m args).2).instances = some i'
         ∧ i'.tag = i.tag ∧ i'.methods = i.methods
         ∧ ((call_plugin mgr k m args).2).nextTag = mgr.nextTag)
    ∧ (∀ (mgr : ManagerState) (k k' m : String) (args : List Value),
       k ≠ k' →
       dget k ((call_plugin mgr k' m args).2).instances = dget k mgr.instances)
    ∧ (∃ i, dget "k"
          ((call_plugin (call_plugin counterMgr "k" "inc" []).2 "k" "inc" []).2).instances
          = some i
        ∧ i.tag = 0 ∧ i.state = Value.int 2
        ∧ (call_plugin counterMgr "k" "inc" []).1 = Except.ok (Value.int 1)
        ∧ (call_plugin (call_plugin counterMgr "k" "inc" []).2 "k" "inc" []).1
          = Except.ok (Value.int 2)) := by
  refine ⟨?_, ?_, ?_, ?_⟩
  · intro mgr k cls m args h1 h2
    unfold call_plugin
    simp only [h1, h2]
    obtain ⟨i', he, ht, hm⟩ := call_dispatch_shape ("方法不存在: " ++ k ++ "." ++ m)
      { mgr with instances := dinsert k (mkInstance mgr.nextTag cls) mgr.instances,
                 nextTag := mgr.nextTag + 1 } k m args (mkInstance mgr.nextTag cls)
    rw [he]
    exact ⟨i', dget_dinsert_self k i' _, ht, hm, rfl⟩
  · intro mgr k cls i m args h1 h2
    unfold call_plugin
    simp only [h1, h2]
    obtain ⟨i', he, ht, hm⟩ := call_dispatch_shape ("方法不存在: " ++ k ++ "." ++ m)
      mgr k m args i
    rw [he]
    exact ⟨i', dget_dinsert_self k i' _, ht, hm, rfl⟩
  · intro mgr k k' m args hk
    cases h1 : dget k' mgr.plugins with
    | none => simp [call_plugin, h1]
    | some cls =>
        cases h2 : dget k' mgr.instances with
        | some i =>
            unfold call_plugin
            simp only [h1, h2]
            obtain ⟨i', he, _, _⟩ := call_dispatch_shape ("方法不存在: " ++ k' ++ "." ++ m)
              mgr k' m args i
            rw [he]
            exact dget_dinsert_ne k k' (Ne.symm hk) i' _
        | none =>
            unfold call_plugin
            simp only [h1, h2]
            obtain ⟨i', he, _, _⟩ := call_dispatch_shape ("方法不存在: " ++ k' ++ "." ++ m)
              { mgr with instances := dinsert k' (mkInstance mgr.nextTag cls) mgr.instances,
                         nextTag := mgr.nextTag + 1 } k' m args (mkInstance mgr.nextTag cls)
            rw [he]
            rw [dget_dinsert_ne k k' (Ne.symm hk) i' _]
            exact dget_dinsert_ne k k' (Ne.symm hk) (mkInstance mgr.nextTag cls) mgr.instances
  · exact ⟨⟨0, Value.int 2, none, counterClass.methods⟩, rfl, rfl, rfl, rfl, rfl⟩

/-- Witness for C3: instantiating the construction part at the concrete
counter registry. -/
theorem C3_witness :
    ∃ i', dget "k" ((call_plugin counterMgr "k" "inc" []).2).instances = some i'
      ∧ i'.tag = counterMgr.nextTag ∧ i'.methods = counterClass.methods
      ∧ ((call_plugin counterMgr "k" "inc" []).2).nextTag = counterMgr.nextTag + 1 :=
  C3_single_instance_per_key.1 counterMgr "k" counterClass "inc" [] rfl rfl

/-- C9: processing a `shutdown` message sets the running flag to false and
emits nothing; with the flag down the loop exits after the current
iteration without reading any further buffered lines; end-of-input likewise
ends the loop.  Both exits return the loop result normally — the model's
loop is total, with no error outcome. -/
theorem C9_shutdown_and_eof_terminate :
    (∀ (fsOf : String → List FSEntry) (st : HState) (msg : Message),
       msg.type = some "shutdown" →
       handle_message fsOf st msg = ({ st with running := false }, []))
    ∧ (∀ (st : HState) (msg : Message),
       msg.type = some "shutdown" →
       br_handle st msg = ({ st with running := false }, []))
    ∧ (∀ (handle : HState → Message → HState × List OutMsg)
        (logMal : String → String) (st : HState) (m : Message) (rest : List Line),
       st.running = true → (handle st m).1.running = false →
       runLoop handle logMal st (Line.msg m :: rest)
         = ⟨(handle st m).2, [], (handle st m).1⟩)
    ∧ (∀ (handle : HState → Message → HState × List OutMsg)
        (logMal : String → String) (st : HState),
       runLoop handle logMal st [] = ⟨[], [], st⟩) := by
  refine ⟨?_, ?_, ?_, ?_⟩
  · intro fsOf st msg h
    simp [handle_message, h]
  · intro st msg h
    simp [br_handle, h]
  · intro handle logMal st m rest h1 h2
    simp [runLoop, h1, runLoop_not_running _ _ _ _ h2]
  · intro handle logMal st
    rfl

/-- Witness for C9: a concrete shutdown message answers with nothing,
flips the flag, and a buffered call line after it is never processed. -/
theorem C9_witness :
    handle_message (fun _ => []) ⟨counterMgr, true⟩ mkShutdown
      = ({ mgr := counterMgr, running := false }, [])
    ∧ runLoop br_handle (fun raw => "无效的JSON: " ++ raw) ⟨counterMgr, true⟩
        [Line.msg mkShutdown, Line.msg (mkCall (some (Value.str "2")) "k" "inc" [])]
        = ⟨(br_handle ⟨counterMgr, true⟩ mkShutdown).2, [],
           (br_handle ⟨counterMgr, true⟩ mkShutdown).1⟩ :=
  ⟨C9_shutdown_and_eof_terminate.1 (fun _ => []) ⟨counterMgr, true⟩ mkShutdown rfl,
   C9_shutdown_and_eof_terminate.2.2.1 br_handle (fun raw => "无效的JSON: " ++ raw)
     ⟨counterMgr, true⟩ mkShutdown [Line.msg (mkCall (some (Value.str "2")) "k" "inc" [])]
     rfl rfl⟩

/-- C4: an undecodable input line is logged on the diagnostic stream,
discarded without any protocol output, and the loop proceeds with the
remaining lines unchanged; one garbage line between two answered calls
yields exactly the two responses, in order. -/
theorem C4_malformed_line_discarded :
    (∀ (handle : HState → Message → HState × List OutMsg)
        (logMal : String → String) (st : HState) (raw : String) (rest : List Line),
       st.running = true →
       runLoop handle logMal st (Line.malformed raw :: rest)
         = ⟨(runLoop handle logMal st rest).outs,
            logMal raw :: (runLoop handle logMal st rest).diags,
            (runLoop handle logMal st rest).final⟩)
    ∧ (∀ (fsOf : String → List FSEntry) (st : HState) (c1 c2 : Message)
        (raw : String) (r1 r2 : OutMsg),
       st.running = true →
       (handle_message fsOf st c1).2 = [r1] →
       ((handle_message fsOf st c1).1).running = true →
       (handle_message fsOf ((handle_message fsOf st c1).1) c2).2 = [r2] →
       (runLoop (handle_message fsOf) (fun _ => "JSON解析错误") st
          [Line.msg c1, Line.malformed raw, Line.msg c2]).outs = [r1, r2]) := by
  refine ⟨?_, ?_⟩
  · intro handle logMal st raw rest h
    simp [runLoop, h]
  · intro fsOf st c1 c2 raw r1 r2 h0 h1 h2 h3
    simp [runLoop, h0, h1, h2, h3]

/-- Witness for C4: two counter calls with a garbage line between them
produce exactly the two value responses, in order. -/
theorem C4_witness :
    (runLoop (handle_message (fun _ => [])) (fun _ => "JSON解析错误") ⟨counterMgr, true⟩
       [Line.msg (mkCall (some (Value.str "1")) "k" "inc" []),
        Line.malformed "oops",
        Line.msg (mkCall (some (Value.str "2")) "k" "inc" [])]).outs
      = [OutMsg.response (some (Value.str "1")) [("value", Value.int 1)],
         OutMsg.response (some (Value.str "2")) [("value", Value.int 2)]] :=
  C4_malformed_line_discarded.2 (fun _ => []) ⟨counterMgr, true⟩
    (mkCall (some (Value.str "1")) "k" "inc" [])
    (mkCall (some (Value.str "2")) "k" "inc" []) "oops"
    (OutMsg.response (some (Value.str "1")) [("value", Value.int 1)])
    (OutMsg.response (some (Value.str "2")) [("value", Value.int 2)])
    rfl rfl rfl rfl

/-- C1 counterexample: on a successful call, bridge.py's response payload
carries the key `result`, not `value` — the claim's success-key is wrong
for this variant. -/
theorem C1_counterexample :
    (br_handle ⟨counterMgr, true⟩ (mkCall (some (Value.str "1")) "k" "inc" [])).2
      = [OutMsg.response (some (Value.str "1")) [("result", Value.int 1)]]
    ∧ dget "value" [("result", Value.int 1)] = none :=
  ⟨rfl, rfl⟩

/-- C1 (amended): a dispatched call with a truthy correlation id is
answered by python_bridge.py with exactly one response carrying that id
and exactly one of `value`/`error`; bridge.py answers every call with
exactly one response carrying the id and exactly one of
`result`/`error` (python_bridge.py with a falsy id answers success only;
bridge.py uses `result`, not `value`). -/
theorem C1_response_correlation :
    (∀ (fsOf : String → List FSEntry) (st : HState) (msg : Message),
       msg.type = some "call" → truthyOpt msg.id = true →
       ∃ d, (handle_message fsOf st msg).2 = [OutMsg.response msg.id d]
         ∧ exactlyOneKey d "value" "error")
    ∧ (∀ (st : HState) (msg : Message),
       msg.type = some "call" →
       ∃ d, (br_handle st msg).2 = [OutMsg.response msg.id d]
         ∧ exactlyOneKey d "result" "error") := by
  constructor
  · intro fsOf st msg h ht
    cases hp : msg.plugin with
    | none =>
        exact ⟨[("error", Value.str "'plugin'")],
          by simp [handle_message, h, hp, errOutPy, ht], Or.inr ⟨rfl, rfl⟩⟩
    | some p =>
        cases hm : msg.method with
        | none =>
            exact ⟨[("error", Value.str "'method'")],
              by simp [handle_message, h, hp, hm, errOutPy, ht], Or.inr ⟨rfl, rfl⟩⟩
        | some m =>
            cases hc : (call_plugin st.mgr p m (msg.args.getD [])).1 with
            | ok v =>
                exact ⟨[("value", v)],
                  by simp [handle_message, h, hp, hm, hc], Or.inl ⟨rfl, rfl⟩⟩
            | error e =>
                exact ⟨[("error", Value.str e)],
                  by simp [handle_message, h, hp, hm, hc, errOutPy, ht],
                  Or.inr ⟨rfl, rfl⟩⟩
  · intro st msg h
    cases hp : msg.plugin with
    | none =>
        exact ⟨[("error", Value.str "'plugin'")],
          by simp [br_handle, h, hp], Or.inr ⟨rfl, rfl⟩⟩
    | some p =>
        cases hm : msg.method with
        | none =>
            exact ⟨[("error", Value.str "'method'")],
              by simp [br_handle, h, hp, hm], Or.inr ⟨rfl, rfl⟩⟩
        | some m =>
            cases hc : (call_method st.mgr p m (msg.args.getD [])).1 with
            | ok v =>
                exact ⟨[("result", v)],
                  by simp [br_handle, h, hp, hm, hc], Or.inl ⟨rfl, rfl⟩⟩
            | error e =>
                exact ⟨[("error", Value.str e)],
                  by simp [br_handle, h, hp, hm, hc], Or.inr ⟨rfl, rfl⟩⟩

/-- Witness for C1: the counter plugin answered once by each variant with
the correlating id and a single payload key. -/
theorem C1_witness :
    (∃ d, (handle_message (fun _ => []) ⟨counterMgr, true⟩
             (mkCall (some (Value.str "1")) "k" "inc" [])).2
        = [OutMsg.response (some (Value.str "1")) d]
      ∧ exactlyOneKey d "value" "error")
    ∧ (∃ d, (br_handle ⟨counterMgr, true⟩
               (mkCall (some (Value.str "1")) "k" "inc" [])).2
        = [OutMsg.response (some (Value.str "1")) d]
      ∧ exactlyOneKey d "result" "error") :=
  ⟨C1_response_correlation.1 (fun _ => []) ⟨counterMgr, true⟩
     (mkCall (some (Value.str "1")) "k" "inc" []) rfl rfl,
   C1_response_correlation.2 ⟨counterMgr, true⟩
     (mkCall (some (Value.str "1")) "k" "inc" []) rfl⟩

/-- C2 counterexample: a failing call that carries no id is answered with
nothing at all by python_bridge.py (`if msg_id:` suppresses the error
response), although the invocation did fail. -/
theorem C2_counterexample :
    (handle_message (fun _ => []) ⟨initMgr, true⟩ (mkCall none "nope" "m" [])).2 = []
    ∧ (call_plugin initMgr "nope" "m" []).1 = Except.error "插件不存在: nope" :=
  ⟨rfl, rfl⟩

/-- C2 (amended): every call whose invocation fails — unknown plugin key,
unknown method, or an exception raised by the plugin method — is answered
by python_bridge.py when its id is truthy, and by bridge.py regardless of
the id, with a response whose `data.error` is exactly the failure
description; the running flag is unchanged, the unknown-plugin and
unknown-method descriptions are non-empty, a plugin-raised description is
surfaced verbatim, and a subsequent call whose invocation succeeds is
answered with its value.  (Only a falsy-id failure goes unanswered in
python_bridge.py.) -/
theorem C2_failure_keeps_bridge_alive :
    (∀ (fsOf : String → List FSEntry) (st : HState) (id : Option Value)
        (k m : String) (args : List Value) (e : String),
       truthyOpt id = true →
       (call_plugin st.mgr k m args).1 = Except.error e →
       (handle_message fsOf st (mkCall id k m args)).2
         = [OutMsg.response id [("error", Value.str e)]]
       ∧ ((handle_message fsOf st (mkCall id k m args)).1).running = st.running
       ∧ ((handle_message fsOf st (mkCall id k m args)).1).mgr
         = (call_plugin st.mgr k m args).2)
    ∧ (∀ (st : HState) (id : Option Value) (k m : String) (args : List Value)
        (e : String),
       (call_method st.mgr k m args).1 = Except.error e →
       (br_handle st (mkCall id k m args)).2
         = [OutMsg.response id [("error", Value.str e)]]
       ∧ ((br_handle st (mkCall id k m args)).1).running = st.running)
    ∧ (∀ (mgr : ManagerState) (k m : String) (args : List Value),
       dget k mgr.plugins = none →
       call_plugin mgr k m args = (Except.error ("插件不存在: " ++ k), mgr)
       ∧ call_method mgr k m args = (Except.error ("插件不存在: " ++ k), mgr)
       ∧ ("插件不存在: " ++ k) ≠ "")
    ∧ (∀ (mgr : ManagerState) (k : String) (cls : PluginClass) (i : Instance)
        (m : String) (args : List Value),
       dget k mgr.plugins = some cls → dget k mgr.instances = some i →
       i.methods m = none →
       (call_plugin mgr k m args).1 = Except.error ("方法不存在: " ++ k ++ "." ++ m)
       ∧ (call_method mgr k m args).1 = Except.error ("方法不存在: " ++ m)
       ∧ ("方法不存在: " ++ k ++ "." ++ m) ≠ "" ∧ ("方法不存在: " ++ m) ≠ "")
    ∧ (∀ (mgr : ManagerState) (k : String) (cls : PluginClass) (i : Instance)
        (m : String) (args : List Value) (f : MethodFn) (e : String),
       dget k mgr.plugins = some cls → dget k mgr.instances = some i →
       i.methods m = some f →
       f i.state (match leadingDict args with
                  | some d => some d
                  | none => i.e) args = Except.error e →
       (call_plugin mgr k m args).1 = Except.error e
       ∧ (call_method mgr k m args).1 = Except.error e)
    ∧ (∀ (fsOf : String → List FSEntry) (st : HState) (id2 : Option Value)
        (k2 m2 : String) (args2 : List Value) (v : Value) (mgr2 : ManagerState),
       truthyOpt id2 = true →
       call_plugin st.mgr k2 m2 args2 = (Except.ok v, mgr2) →
       (handle_message fsOf st (mkCall id2 k2 m2 args2)).2
         = [OutMsg.response id2 [("value", v)]]) := by
  refine ⟨?_, ?_, ?_, ?_, ?_, ?_⟩
  · intro fsOf st id k m args e h1 hc
    refine ⟨?_, ?_, ?_⟩ <;> simp [handle_message, mkCall, hc, errOutPy, h1]
  · intro st id k m args e hc
    refine ⟨?_, ?_⟩ <;> simp [br_handle, mkCall, hc]
  · intro mgr k m args h2
    refine ⟨by unfold call_plugin; simp [h2], by unfold call_method; simp [h2], ?_⟩
    intro hfalse
    have hlen : ("插件不存在: " ++ k).length = 0 := by rw [hfalse]; rfl
    rw [String.length_append] at hlen
    have : ("插件不存在: " : String).length ≠ 0 := by decide
    omega
  · intro mgr k cls i m args h1 h2 hm
    have hgen : ("方法不存在: " : String).length ≠ 0 := by decide
    refine ⟨?_, ?_, ?_, ?_⟩
    · unfold call_plugin call_dispatch
      simp only [h1, h2]
      cases hl : leadingDict args <;> simp [hm]
    · unfold call_method call_dispatch
      simp only [h1, h2]
      cases hl : leadingDict args <;> simp [hm]
    · intro hfalse
      have hlen : ("方法不存在: " ++ k ++ "." ++ m).length = 0 := by rw [hfalse]; rfl
      rw [String.length_append, String.length_append, String.length_append] at hlen
      omega
    · intro hfalse
      have hlen : ("方法不存在: " ++ m).length = 0 := by rw [hfalse]; rfl
      rw [String.length_append] at hlen
      omega
  · intro mgr k cls i m args f e h1 h2 hm hf
    constructor
    · unfold call_plugin call_dispatch
      simp only [h1, h2]
      cases hl : leadingDict args <;> rw [hl] at hf <;> simp [hm, hf]
    · unfold call_method call_dispatch
      simp only [h1, h2]
      cases hl : leadingDict args <;> rw [hl] at hf <;> simp [hm, hf]
  · intro fsOf st id2 k2 m2 args2 v mgr2 h1 h2
    simp [handle_message, mkCall, h2]

/-- Witness for C2: an unknown-method call and a plugin-raised exception
each get their description as a truthy-id error response from
python_bridge.py; bridge.py answers an unknown-plugin call even without an
id; the non-emptiness conjuncts hold at the concrete key; and the very
next counter call is answered with its value. -/
theorem C2_witness :
    ((handle_message (fun _ => []) ⟨liveMgr, true⟩
        (mkCall (some (Value.str "7")) "k" "nope" [])).2
       = [OutMsg.response (some (Value.str "7"))
            [("error", Value.str ("方法不存在: " ++ "k" ++ "." ++ "nope"))]]
     ∧ ((handle_message (fun _ => []) ⟨liveMgr, true⟩
          (mkCall (some (Value.str "7")) "k" "nope" [])).1).running = true
     ∧ ((handle_message (fun _ => []) ⟨liveMgr, true⟩
          (mkCall (some (Value.str "7")) "k" "nope" [])).1).mgr
       = (call_plugin liveMgr "k" "nope" []).2)
    ∧ ((handle_message (fun _ => []) ⟨badMgr, true⟩
         (mkCall (some (Value.str "9")) "k" "inc" [])).2
        = [OutMsg.response (some (Value.str "9")) [("error", Value.str "bad state")]]
      ∧ ((handle_message (fun _ => []) ⟨badMgr, true⟩
           (mkCall (some (Value.str "9")) "k" "inc" [])).1).running = true
      ∧ ((handle_message (fun _ => []) ⟨badMgr, true⟩
           (mkCall (some (Value.str "9")) "k" "inc" [])).1).mgr
        = (call_plugin badMgr "k" "inc" []).2)
    ∧ ((br_handle ⟨counterMgr, true⟩ (mkCall none "zz" "m" [])).2
        = [OutMsg.response none [("error", Value.str ("插件不存在: " ++ "zz"))]]
      ∧ ((br_handle ⟨counterMgr, true⟩ (mkCall none "zz" "m" [])).1).running = true)
    ∧ (call_plugin counterMgr "zz" "m" []
        = (Except.error ("插件不存在: " ++ "zz"), counterMgr)
      ∧ call_method counterMgr "zz" "m" []
        = (Except.error ("插件不存在: " ++ "zz"), counterMgr)
      ∧ ("插件不存在: " ++ "zz") ≠ "")
    ∧ (handle_message (fun _ => []) ⟨counterMgr, true⟩
         (mkCall (some (Value.str "8")) "k" "inc" [])).2
      = [OutMsg.response (some (Value.str "8")) [("value", Value.int 1)]] :=
  ⟨C2_failure_keeps_bridge_alive.1 (fun _ => []) ⟨liveMgr, true⟩
     (some (Value.str "7")) "k" "nope" [] ("方法不存在: " ++ "k" ++ "." ++ "nope") rfl rfl,
   C2_failure_keeps_bridge_alive.1 (fun _ => []) ⟨badMgr, true⟩
     (some (Value.str "9")) "k" "inc" [] "bad state" rfl rfl,
   C2_failure_keeps_bridge_alive.2.1 ⟨counterMgr, true⟩
     none "zz" "m" [] ("插件不存在: " ++ "zz") rfl,
   C2_failure_keeps_bridge_alive.2.2.1 counterMgr "zz" "m" [] rfl,
   C2_failure_keeps_bridge_alive.2.2.2.2.2 (fun _ => []) ⟨counterMgr, true⟩
     (some (Value.str "8")) "k" "inc" [] (Value.int 1) _ rfl rfl⟩

/-- C8 counterexample: bridge.py ignores a `load_plugins` message
entirely — no discovery is re-run and nothing is emitted — although its own
`load_all` over the same directory listing would register a plugin and
emit its event. -/
theorem C8_counterexample :
    br_handle ⟨counterMgr, true⟩ (mkLoadPlugins (some (Value.str "9")) "d")
      = (⟨counterMgr, true⟩, [])
    ∧ (br_load_all initMgr
        [FSEntry.dir ⟨"example", [⟨"index.py", [counterClass]⟩]⟩]).2.length = 1 :=
  ⟨rfl, rfl⟩

/-- C8 (amended): in python_bridge.py a `load_plugins` message re-runs
discovery against `data.dir`, replacing the key→type entry of every
rediscovered key while leaving the key→instance map and the running flag
untouched, and a previously constructed live instance keeps serving later
calls (same tag, same callables); bridge.py ignores the message
entirely. -/
theorem C8_rescan_preserves_instances :
    (∀ (fsOf : String → List FSEntry) (st : HState) (id : Option Value) (dir : String),
       handle_message fsOf st (mkLoadPlugins id dir)
         = ({ st with mgr := { st.mgr with
                plugins := insertAll st.mgr.plugins (pyDiscovered (fsOf dir)) } },
            pyEvents (pyDiscovered (fsOf dir))))
    ∧ (∀ (st : HState) (msg : Message),
       msg.type = some "load_plugins" → br_handle st msg = (st, []))
    ∧ (∀ (mgr : ManagerState) (k : String) (i : Instance) (m : String)
        (args : List Value),
       dget k mgr.instances = some i →
       ∃ i', dget k ((call_plugin mgr k m args).2).instances = some i'
         ∧ i'.tag = i.tag ∧ i'.methods = i.methods) := by
  refine ⟨?_, ?_, ?_⟩
  · intro fsOf st id dir
    simp [handle_message, mkLoadPlugins, dget, scan_plugins_spec]
  · intro st msg h
    simp [br_handle, h]
  · intro mgr k i m args h2
    cases h1 : dget k mgr.plugins with
    | none => exact ⟨i, by simp [call_plugin, h1, h2], rfl, rfl⟩
    | some cls =>
        unfold call_plugin
        simp only [h1, h2]
        obtain ⟨i', he, ht, hm⟩ :=
          call_dispatch_shape ("方法不存在: " ++ k ++ "." ++ m) mgr k m args i
        rw [he]
        exact ⟨i', dget_dinsert_self k i' _, ht, hm⟩

/-- Witness for C8: the bridge.py no-op at a concrete message, and a live
instance surviving a call with its tag and callables intact. -/
theorem C8_witness :
    br_handle ⟨counterMgr, true⟩ (mkLoadPlugins none "p") = (⟨counterMgr, true⟩, [])
    ∧ (∃ i', dget "k" ((call_plugin liveMgr "k" "inc" []).2).instances = some i'
        ∧ i'.tag = 0 ∧ i'.methods = counterClass.methods) :=
  ⟨C8_rescan_preserves_instances.2.1 ⟨counterMgr, true⟩ (mkLoadPlugins none "p") rfl,
   C8_rescan_preserves_instances.2.2 liveMgr "k" liveInst "inc" [] rfl⟩

theorem brEvents_all_reg (kcs : List (String × PluginClass)) :
    ∀ o ∈ brEvents kcs, ∃ d, o = OutMsg.pluginRegistered d := by
  intro o ho
  unfold brEvents at ho
  rw [List.mem_flatMap] at ho
  obtain ⟨kc, _, ho⟩ := ho
  split at ho
  · exact ⟨_, by simpa using ho⟩
  · simp at ho

theorem isReady_true_iff (o : OutMsg) : isReady o = true ↔ o = OutMsg.ready := by
  cases o <;> simp [isReady]

/-- C5 counterexample: python_bridge.py, started with a configured plugin
root whose listing contains a plugin, emits its single `ready` without a
single `plugin_registered` event ever having been produced — although
running its own discovery over that root would produce one.  Startup
discovery simply never happens (the parsed `--plugins-dir` value is
unused). -/
theorem C5_counterexample :
    ((py_main ["--plugins-dir", "root"]
        (fun _ => [FSEntry.dir ⟨"example", [⟨"index.py", [counterClass]⟩]⟩])
        []).outs.countP isReg = 0)
    ∧ ((py_main ["--plugins-dir", "root"]
        (fun _ => [FSEntry.dir ⟨"example", [⟨"index.py", [counterClass]⟩]⟩])
        []).outs.countP isReady = 1)
    ∧ ((scan_plugins initMgr
          [FSEntry.dir ⟨"example", [⟨"index.py", [counterClass]⟩]⟩]).2.countP isReg
        = 1) :=
  ⟨rfl, rfl, rfl⟩

/-- C5 (amended): bridge.py completes discovery over the configured root
before emitting `ready` — every output before the unique `ready` is a
discovery output and every `plugin_registered` event of the run is among
them — and `ready` is emitted exactly once; python_bridge.py also emits
`ready` exactly once, as its very first output, but performs no startup
discovery at all. -/
theorem C5_ready_once_after_discovery :
    (∀ (argv : List String) (fsOf : String → List FSEntry) (lines : List Line),
       (br_main argv fsOf lines).outs
         = (br_load_all initMgr (fsOf (parsePluginsDir argv "plugins/python"))).2
           ++ OutMsg.ready
           :: (runLoop br_handle (fun raw => "无效的JSON: " ++ raw)
                 ⟨(br_load_all initMgr (fsOf (parsePluginsDir argv "plugins/python"))).1,
                  true⟩ lines).outs
       ∧ (∀ o ∈ (br_load_all initMgr (fsOf (parsePluginsDir argv "plugins/python"))).2,
            isReg o = true ∧ isReady o = false)
       ∧ (∀ o ∈ (runLoop br_handle (fun raw => "无效的JSON: " ++ raw)
                   ⟨(br_load_all initMgr (fsOf (parsePluginsDir argv "plugins/python"))).1,
                    true⟩ lines).outs,
            isReg o = false ∧ isReady o = false)
       ∧ ((br_main argv fsOf lines).outs.countP isReady = 1))
    ∧ (∀ (argv : List String) (fsOf : String → List FSEntry) (lines : List Line),
       (py_main argv fsOf lines).outs
         = OutMsg.ready :: OutMsg.log "info" "Python运行时已就绪"
             :: (runLoop (handle_message fsOf) (fun _ => "JSON解析错误")
                   ⟨initMgr, true⟩ lines).outs
       ∧ ((py_main argv fsOf lines).outs.countP isReady = 1)) := by
  constructor
  · intro argv fsOf lines
    refine ⟨rfl, ?_, ?_, ?_⟩
    · intro o ho
      rw [br_load_all_spec] at ho
      obtain ⟨d, rfl⟩ := brEvents_all_reg _ o (by simpa using ho)
      exact ⟨rfl, rfl⟩
    · intro o ho
      obtain ⟨st', m, hm⟩ := runLoop_outs_mem br_handle _ lines _ o ho
      obtain ⟨i, d, rfl⟩ := br_handle_out_response st' m o hm
      exact ⟨rfl, rfl⟩
    · have h1 : ((br_load_all initMgr
          (fsOf (parsePluginsDir argv "plugins/python"))).2).countP isReady = 0 := by
        rw [List.countP_eq_zero]
        intro o ho
        rw [br_load_all_spec] at ho
        obtain ⟨d, rfl⟩ := brEvents_all_reg _ o (by simpa using ho)
        simp [isReady]
      have h2 : ((runLoop br_handle (fun raw => "无效的JSON: " ++ raw)
          ⟨(br_load_all initMgr (fsOf (parsePluginsDir argv "plugins/python"))).1,
           true⟩ lines).outs).countP isReady = 0 := by
        rw [List.countP_eq_zero]
        intro o ho
        obtain ⟨st', m, hm⟩ := runLoop_outs_mem br_handle _ lines _ o ho
        obtain ⟨i, d, rfl⟩ := br_handle_out_response st' m o hm
        simp [isReady]
      show ((br_load_all initMgr (fsOf (parsePluginsDir argv "plugins/python"))).2
          ++ OutMsg.ready
          :: (runLoop br_handle (fun raw => "无效的JSON: " ++ raw)
                ⟨(br_load_all initMgr (fsOf (parsePluginsDir argv "plugins/python"))).1,
                 true⟩ lines).outs).countP isReady = 1
      rw [List.countP_append, h1]
      simp [List.countP_cons, h2, isReady]
  · intro argv fsOf lines
    refine ⟨rfl, ?_⟩
    have h2 : ((runLoop (handle_message fsOf) (fun _ => "JSON解析错误")
        ⟨initMgr, true⟩ lines).outs).countP isReady = 0 := by
      rw [List.countP_eq_zero]
      intro o ho
      obtain ⟨st', m, hm⟩ := runLoop_outs_mem (handle_message fsOf) _ lines _ o ho
      intro hro
      rw [isReady_true_iff] at hro
      subst hro
      exact handle_message_no_ready fsOf st' m hm
    show (OutMsg.ready :: OutMsg.log "info" "Python运行时已就绪"
        :: (runLoop (handle_message fsOf) (fun _ => "JSON解析错误")
              ⟨initMgr, true⟩ lines).outs).countP isReady = 1
    simp [List.countP_cons, h2, isReady]

/-- Witness for C10: an unknown-method call with a mapping argument fails
yet leaves the context overwritten; a later no-mapping call hands the
method that stale context. -/
theorem C10_witness :
    call_plugin liveMgr "k" "nope" [Value.dict [("msg", Value.str "hi")]]
      = (Except.error ("方法不存在: " ++ "k" ++ "." ++ "nope"),
         { liveMgr with instances :=
             (dinsert "k" { liveInst with e := some [("msg", Value.str "hi")] }
               liveMgr.instances) })
    ∧ (call_plugin staleMgr "k" "show_e" []).1
      = Except.map Prod.fst (showEFn (Value.int 5) (some [("msg", Value.str "hi")]) []) :=
  ⟨C10_context_mutated_despite_failure.1 liveMgr "k" counterClass liveInst "nope"
     [Value.dict [("msg", Value.str "hi")]] [("msg", Value.str "hi")] rfl rfl rfl rfl,
   C10_context_mutated_despite_failure.2.2 staleMgr "k" counterClass staleInst
     "show_e" [] showEFn rfl rfl rfl rfl⟩

/-- Witness for C5: the ready-count conclusions at concrete runs of both
variants. -/
theorem C5_witness :
    ((br_main ["--plugins-dir", "root"]
        (fun _ => [FSEntry.dir ⟨"example", [⟨"index.py", [counterClass]⟩]⟩])
        []).outs.countP isReady = 1)
    ∧ ((py_main [] (fun _ => []) []).outs.countP isReady = 1) :=
  ⟨(C5_ready_once_after_discovery.1 ["--plugins-dir", "root"]
      (fun _ => [FSEntry.dir ⟨"example", [⟨"index.py", [counterClass]⟩]⟩]) []).2.2.2,
   (C5_ready_once_after_discovery.2 [] (fun _ => []) []).2⟩
